import Mathlib

/-!
Verification of the structure-inference engine of `pyflattendb`
(`src/pyflattendb/generator.py`, class `SchemaGenerator`).

The analyzer consumes a Python value (nested dicts / lists / scalars plus an
out-of-band metadata store keyed by `"entity.field"`) and produces an entity
graph: an insertion-ordered mapping from entity name to an ordered list of
field descriptors (`FieldInfo`).

Modelling conventions:
  * Python values are the inductive `Value`.  Float payloads are abstracted
    (the analyzer only ever inspects a float through `type(value)`, never its
    numeric contents); a float is modelled as truthy.
  * Python dicts are insertion-ordered association lists; assignment to an
    existing key keeps its position (`dictSet`), as CPython guarantees.
  * Directive bags are raw association lists `String × Value`, exactly as the
    source stores them.  Directive values that the source would carry opaquely
    into string positions (entity names, table names) are modelled for string
    or null values; a non-string, non-null value in such a position would
    produce a non-string dict key or column name downstream in Python and is
    outside the analyzer's own data model.
  * Boolean-read directives (`is_reference_table`, `is_many_to_many`,
    `primary_key`, `nullable`) are read through Python truthiness (`pyTruthy`).
  * The fallible paths (`ValueError` raises) are `Except.error`.
  * Recursion depth is bounded by explicit fuel; `analyzeStructure fuel.succ`
    performs exactly one Python-level `analyze_structure` activation and hands
    `fuel` to the nested activations, so any fuel at least the document depth
    is enough.  Running out of fuel is an `Except.error`, so an `Except.ok`
    result always corresponds to an actual terminating run of the source.
  * `AnalyzerState.trace` is ghost instrumentation: it records, for each
    `analyze_structure` activation, the entity name being analyzed and whether
    that name was already a key of the shared graph when the activation
    started.  No analyzer decision reads the trace.
-/

namespace PyFlattenDB

/-- A Python runtime value as observed by the analyzer. -/
inductive Value : Type where
  | null : Value
  | str : String → Value
  | int : Int → Value
  | float : Value
  | bool : Bool → Value
  | dict : List (String × Value) → Value
  | list : List Value → Value

/-- The Python types recorded in `FieldInfo.python_type`:
`str`, `int`, `float`, `bool`, `dict`, `list`, `type(None)` and `typing.Any`. -/
inductive PyType : Type where
  | str | int | float | bool | dict | list | noneType | any
  deriving DecidableEq

/-- `type(value) if value is not None else type(None)` (generator.py line 397). -/
def runtimeType : Value → PyType
  | Value.null => PyType.noneType
  | Value.str _ => PyType.str
  | Value.int _ => PyType.int
  | Value.float => PyType.float
  | Value.bool _ => PyType.bool
  | Value.dict _ => PyType.dict
  | Value.list _ => PyType.list

/-- `value is None`. -/
def isNull : Value → Bool
  | Value.null => true
  | _ => false

/-- `isinstance(value, str)`. -/
def isStr : Value → Bool
  | Value.str _ => true
  | _ => false

/-- Python truthiness of a value (used for directive reads such as
`metadata.get("is_many_to_many", False)`).  The abstracted float payload is
taken to be nonzero, hence truthy. -/
def pyTruthy : Value → Bool
  | Value.null => false
  | Value.str s => !(s == "")
  | Value.int n => !(n == 0)
  | Value.float => true
  | Value.bool b => b
  | Value.dict fs => !fs.isEmpty
  | Value.list xs => !xs.isEmpty

/-- Python `s.endswith(suffix)` (kernel-reducible form of `String.endsWith`). -/
def strEndsWith (s suffix : String) : Bool :=
  suffix.data.isSuffixOf s.data

/-- Python `s[:-n]` for `n ≤ len(s)` (kernel-reducible `String.dropRight`). -/
def strDropRight (s : String) (n : Nat) : String :=
  String.mk (s.data.take (s.data.length - n))

/-- Python `s.lower()` (kernel-reducible `String.toLower`). -/
def strToLower (s : String) : String :=
  String.mk (s.data.map Char.toLower)

/-- First-match association-list lookup — Python `d[k]` / `d.get(k)` on an
insertion-ordered dict with unique keys. -/
def alookup (xs : List (String × α)) (k : String) : Option α :=
  (xs.find? (fun p => p.1 == k)).map (fun p => p.2)

/-- Python `d[k] = v`: overwrite in place when the key exists (keeping its
position), otherwise append at the end. -/
def dictSet (xs : List (String × α)) (k : String) (v : α) : List (String × α) :=
  if xs.any (fun p => p.1 == k) then
    xs.map (fun p => if p.1 == k then (k, v) else p)
  else xs ++ [(k, v)]

/-- One field's directive bag (a raw Python dict). -/
abbrev FieldMeta := List (String × Value)

/-- The metadata store: `"entity.field"` → directive bag. -/
abbrev MetaStore := List (String × FieldMeta)

/-- `metadata.get(k, dflt)`. -/
def metaGet (m : FieldMeta) (k : String) (dflt : Value) : Value :=
  (alookup m k).getD dflt

/-- One inferred attribute of one entity (dataclass `FieldInfo`,
generator.py lines 95-112), with the same defaults. -/
structure FieldInfo where
  name : String
  python_type : PyType
  nullable : Bool
  is_relationship : Bool := false
  relationship_type : Option String := Option.none
  is_list : Bool := false
  description : Option String := Option.none
  metadata : FieldMeta := []
  is_foreign_key : Bool := false
  foreign_key_to : Option String := Option.none
  is_reference_table : Bool := false
  reference_table_name : Option String := Option.none
  is_many_to_many : Bool := false
  association_table_name : Option String := Option.none

/-- The entity graph: entity name → ordered field list (`_analyzed_structure`). -/
abbrev Graph := List (String × List FieldInfo)

/-- `SchemaGenerator.METADATA_KEY`. -/
def METADATA_KEY : String := "_pyflattendb"

/-- `SchemaGenerator.COMMON_ENTITIES` (generator.py lines 154-167). -/
def COMMON_ENTITIES : List String :=
  ["address", "user", "order", "product", "customer", "employee",
   "company", "department", "location", "contact", "payment", "item"]

/-- The irregular-plural table of `SchemaGenerator._singularize`. -/
def irregulars : List (String × String) :=
  [("addresses", "address"), ("children", "child"), ("feet", "foot"),
   ("geese", "goose"), ("men", "man"), ("mice", "mouse"),
   ("people", "person"), ("teeth", "tooth"), ("women", "woman"),
   ("items", "item")]

/-- `SchemaGenerator._singularize` (generator.py lines 230-277). -/
def singularize (word : String) : String :=
  if word == "" then word
  else
    match alookup irregulars word with
    | some s => s
    | Option.none =>
      if strEndsWith word "ies" then strDropRight word 3 ++ "y"
      else if strEndsWith word "es" then strDropRight word 2
      else if strEndsWith word "s" then strDropRight word 1
      else word

/-- `SchemaGenerator._get_field_metadata` (generator.py lines 346-361):
exact `"type.field"` key first, then the singularized type name, else `{}`. -/
def getFieldMeta (store : MetaStore) (typeName fieldName : String) : FieldMeta :=
  match alookup store (typeName ++ "." ++ fieldName) with
  | some m => m
  | Option.none =>
    let singularType := singularize typeName
    if !(singularType == typeName) then
      (alookup store (singularType ++ "." ++ fieldName)).getD []
    else []

/-- `SchemaGenerator._determine_entity_type` (generator.py lines 279-337) for a
nested dict value.  `Option.none` models the Python `None` returned when the
`entity_type` directive is an explicit null (the value argument is unused in
the source as well). -/
def determineEntityType (store : MetaStore) (_value : Value)
    (fieldName parentType : String) : Option String :=
  let m := getFieldMeta store parentType fieldName
  match alookup m "entity_type" with
  | some (Value.str s) => some s
  | some _ => Option.none
  | Option.none =>
    let singularName := singularize (strToLower fieldName)
    if COMMON_ENTITIES.contains singularName then some singularName
    else if COMMON_ENTITIES.contains (strToLower fieldName) then some (strToLower fieldName)
    else some fieldName

/-- Entity-type resolution for a list-of-dict field:
`metadata.get("entity_type") or self._singularize(field_name)`
(generator.py lines 438-439 and 546-547).  A falsy directive value (absent,
null, or the empty string) falls back to the singularized field name. -/
def listEntityType (store : MetaStore) (fieldName parentType : String) : String :=
  let m := getFieldMeta store parentType fieldName
  match alookup m "entity_type" with
  | some (Value.str s) => if s == "" then singularize fieldName else s
  | some _ => singularize fieldName
  | Option.none => singularize fieldName

/-- The `type_map` of `_analyze_value` (generator.py line 392). -/
def typeMap : String → Option PyType
  | "string" => some PyType.str
  | "integer" => some PyType.int
  | "float" => some PyType.float
  | "boolean" => some PyType.bool
  | "json" => some PyType.dict
  | "array" => some PyType.list
  | _ => Option.none

/-- `type_map.get(metadata["type"])`: a non-string directive value is not a
key of `type_map`. -/
def typeOverride : Value → Option PyType
  | Value.str s => typeMap s
  | _ => Option.none

/-- `nullable = metadata.get("nullable", value is None)` (lines 381 and 399);
a present directive is read through truthiness. -/
def metaNullable (m : FieldMeta) (v : Value) : Bool :=
  match alookup m "nullable" with
  | some nv => pyTruthy nv
  | Option.none => isNull v

/-- `description=metadata.get("description")`: absent and null both give no
description. -/
def metaDescription (m : FieldMeta) : Option String :=
  match alookup m "description" with
  | some (Value.str s) => some s
  | _ => Option.none

/-- `metadata.get(k, dflt)` into an optional-string slot of `FieldInfo`
(used for `reference_table_name` / `association_table_name`): a stored null
becomes Python `None`. -/
def metaStrGetD (m : FieldMeta) (k : String) (dflt : String) : Option String :=
  match alookup m k with
  | some (Value.str s) => some s
  | some Value.null => Option.none
  | some _ => some dflt
  | Option.none => some dflt

/-- The base python type of `_analyze_value` (generator.py lines 390-397): an
explicit `type` directive is mapped through `type_map`, an unrecognized name
raises `ValueError`, no directive infers from the example's runtime type. -/
def basePyType (m : FieldMeta) (v : Value) : Except String PyType :=
  match alookup m "type" with
  | some tv =>
    match typeOverride tv with
    | some pt => Except.ok pt
    | Option.none => Except.error "Unsupported type in metadata"
  | Option.none => Except.ok (runtimeType v)

/-- The relationship-shaping tail of `_analyze_value` (generator.py lines
408-459), applied to the already-built base descriptor. -/
def shapeField (store : MetaStore) (m : FieldMeta) (base : FieldInfo)
    (v : Value) (fieldName parentType : String) : FieldInfo :=
  if isNull v then
    -- null value: a declared entity_type still makes it a relationship
    match alookup m "entity_type" with
    | some (Value.str s) =>
      { base with is_relationship := true, relationship_type := some s,
                  python_type := PyType.any }
    | some _ =>
      { base with is_relationship := true, relationship_type := Option.none,
                  python_type := PyType.any }
    | Option.none => base
  else if fieldName == parentType then base
  else
    match v with
    | Value.dict _ =>
      (match determineEntityType store v fieldName parentType with
       | some e =>
         { base with is_relationship := true, relationship_type := some e,
                     is_foreign_key := true, foreign_key_to := some e }
       | Option.none => base)
    | Value.list [] => { base with is_list := true }
    | Value.list (first :: _) =>
      (match first with
       | Value.dict _ =>
         if pyTruthy (metaGet m "is_many_to_many" (Value.bool false)) then
           { base with is_list := true, is_relationship := true,
                       relationship_type :=
                         some (listEntityType store fieldName parentType),
                       is_many_to_many := true,
                       association_table_name :=
                         metaStrGetD m "association_table_name"
                           (parentType ++ "_" ++
                            listEntityType store fieldName parentType ++
                            "_association"),
                       is_foreign_key := false }
         else
           { base with is_list := true, is_relationship := true,
                       relationship_type :=
                         some (listEntityType store fieldName parentType),
                       is_foreign_key := true,
                       foreign_key_to :=
                         some (listEntityType store fieldName parentType) }
       | _ => { base with is_list := true })
    | _ => base

/-- `SchemaGenerator._analyze_value` (generator.py lines 371-459). -/
def analyzeValue (store : MetaStore) (v : Value)
    (fieldName parentType : String) : Except String FieldInfo :=
  let m := getFieldMeta store parentType fieldName
  if pyTruthy (metaGet m "is_reference_table" (Value.bool false)) && isStr v then
    Except.ok
      { name := fieldName, python_type := PyType.str,
        nullable := metaNullable m v, description := metaDescription m,
        metadata := m, is_reference_table := true,
        reference_table_name := metaStrGetD m "reference_table_name" (fieldName ++ "_ref") }
  else
    match basePyType m v with
    | Except.error e => Except.error e
    | Except.ok pt =>
      Except.ok (shapeField store m
        { name := fieldName, python_type := pt, nullable := metaNullable m v,
          description := metaDescription m, metadata := m }
        v fieldName parentType)

/-- The synthetic identity field added by the finishing pass
(generator.py lines 586-592). -/
def syntheticIdField : FieldInfo :=
  { name := "id", python_type := PyType.int, nullable := false,
    metadata := [("primary_key", Value.bool true)],
    description := some "Primary key" }

/-- `field.metadata.get("primary_key", False)` read truthily. -/
def isPkField (f : FieldInfo) : Bool :=
  pyTruthy (metaGet f.metadata "primary_key" (Value.bool false))

/-- The finishing pass (generator.py lines 579-593): every non-association
entity with no explicitly primary-keyed field gets `syntheticIdField`
prepended. -/
def addIdPass (g : Graph) : Graph :=
  g.map (fun p =>
    if strEndsWith p.1 "_association" then p
    else if p.2.any isPkField then p
    else (p.1, syntheticIdField :: p.2))

/-- Keep only dict-valued entries of a raw metadata block; a non-dict directive
bag would raise `AttributeError` at its first use in the source. -/
def parseMetaBlock (fields : List (String × Value)) : MetaStore :=
  fields.filterMap (fun p =>
    match p.2 with
    | Value.dict d => some (p.1, d)
    | _ => Option.none)

/-- `self._metadata.update(metadata)` — later entries win, existing keys keep
their position. -/
def storeUpdate (store newEntries : MetaStore) : MetaStore :=
  newEntries.foldl (fun acc p => dictSet acc p.1 p.2) store

/-- `g.any (·.1 == k)`: `k in self._analyzed_structure`. -/
def graphHasKey (g : Graph) (k : String) : Bool :=
  g.any (fun p => p.1 == k)

/-- The mutable state threaded by reference through the recursion: the shared
metadata store, the shared entity graph, and the ghost activation trace
(entity name, whether it was already a graph key when its analysis began). -/
structure AnalyzerState where
  store : MetaStore
  graph : Graph
  trace : List (String × Bool)

/-- Sequencing of fallible steps (Python exception propagation). -/
def exBind (x : Except String α) (f : α → Except String β) : Except String β :=
  match x with
  | Except.error e => Except.error e
  | Except.ok a => f a

/-- The nested-object recursion step (generator.py lines 524-543): recurse
into the entity only when the field is a singular relationship, the resolved
entity type is not `None`, and the entity is not yet registered. -/
def maybeRecurseDict (rec : AnalyzerState → String → Value → Except String AnalyzerState)
    (st : AnalyzerState) (fi : FieldInfo) (eOpt : Option String) (v : Value) :
    Except String AnalyzerState :=
  if fi.is_relationship && !fi.is_list then
    match eOpt with
    | some e =>
      if graphHasKey st.graph e then Except.ok st
      else rec st e (if e == METADATA_KEY then Value.dict [] else v)
    | Option.none => Except.ok st
  else Except.ok st

/-- The list-of-dicts recursion step (generator.py lines 552-571): recurse
into the entity, on the list's FIRST element, only when the field is a plural
relationship and the entity is not yet registered. -/
def maybeRecurseList (rec : AnalyzerState → String → Value → Except String AnalyzerState)
    (st : AnalyzerState) (fi : FieldInfo) (e : String) (d : List (String × Value)) :
    Except String AnalyzerState :=
  if fi.is_relationship && fi.is_list then
    if graphHasKey st.graph e then Except.ok st
    else rec st e (if e == METADATA_KEY then Value.dict [] else Value.dict d)
  else Except.ok st

/-- The per-field loop of `SchemaGenerator.analyze_structure`
(generator.py lines 512-575), parametrized by the nested-analysis call `rec`
(`SchemaGenerator(..).analyze_structure()` on `{entity_type: value}`).
The reserved metadata key is skipped; dict fields may trigger a singular
recursion, non-empty lists whose first element is a dict may trigger a plural
recursion, and every other value is analyzed in place. -/
def analyzeLoopF (rec : AnalyzerState → String → Value → Except String AnalyzerState)
    (typeName : String) :
    AnalyzerState → List (String × Value) →
    Except String (AnalyzerState × List FieldInfo)
  | st, [] => Except.ok (st, [])
  | st, (fieldName, v) :: rest =>
    if fieldName == METADATA_KEY then analyzeLoopF rec typeName st rest
    else
      match v with
      | Value.dict _ =>
        exBind (analyzeValue st.store v fieldName typeName) (fun fi =>
          exBind (maybeRecurseDict rec st fi
              (determineEntityType st.store v fieldName typeName) v) (fun st1 =>
            exBind (analyzeLoopF rec typeName st1 rest) (fun r =>
              Except.ok (r.1, fi :: r.2))))
      | Value.list (Value.dict d :: _) =>
        exBind (analyzeValue st.store v fieldName typeName) (fun fi =>
          exBind (maybeRecurseList rec st fi
              (listEntityType st.store fieldName typeName) d) (fun st1 =>
            exBind (analyzeLoopF rec typeName st1 rest) (fun r =>
              Except.ok (r.1, fi :: r.2))))
      | _ =>
        exBind (analyzeValue st.store v fieldName typeName) (fun fi =>
          exBind (analyzeLoopF rec typeName st rest) (fun r =>
            Except.ok (r.1, fi :: r.2)))

/-- Record the ghost activation event for `typeName` against the current
graph. -/
def recordActivation (st : AnalyzerState) (typeName : String) : AnalyzerState :=
  { st with trace := st.trace ++ [(typeName, graphHasKey st.graph typeName)] }

/-- Merge a locally declared metadata block into the shared store
(generator.py lines 500-504); the block's entries win over existing keys. -/
def mergeLocalMeta (st : AnalyzerState) (fs0 : List (String × Value)) : AnalyzerState :=
  match alookup fs0 METADATA_KEY with
  | some (Value.dict mb) => { st with store := storeUpdate st.store (parseMetaBlock mb) }
  | _ => st

/-- `SchemaGenerator.analyze_structure` (generator.py lines 461-595), one fuel
unit per activation: merge a locally declared metadata block into the shared
store (lines 500-506), require a dict (lines 509-510), run the field loop,
register the analyzed field list under `typeName` (line 576), and apply the
finishing pass (lines 579-593). -/
def analyzeStructure : Nat → AnalyzerState → String → Value → Except String AnalyzerState
  | 0, _, _, _ => Except.error "recursion fuel exhausted"
  | Nat.succ fuel, st, typeName, rootData =>
    match rootData with
    | Value.dict fs0 =>
      exBind (analyzeLoopF (analyzeStructure fuel) typeName
          (mergeLocalMeta (recordActivation st typeName) fs0)
          (fs0.filter (fun p => !(p.1 == METADATA_KEY)))) (fun r =>
        Except.ok { r.1 with graph := addIdPass (dictSet r.1.graph typeName r.2) })
    | _ => Except.error "Root data must be a dictionary"

/-- `SchemaGenerator._extract_metadata` (generator.py lines 339-344): the
dict stored under the reserved key, or `{}` when absent or not a dict. -/
def extractTopMeta (fs : List (String × Value)) : MetaStore :=
  match alookup fs METADATA_KEY with
  | some (Value.dict mb) => parseMetaBlock mb
  | _ => []

/-- `SchemaGenerator(data).analyze_structure()` with no explicit type name
(`__init__` lines 191-212 followed by `analyze_structure`): extract the
top-level metadata block, strip it, require exactly one remaining top-level
key, and analyze under that key's name over an empty shared graph. -/
def pyAnalyzeFull (fuel : Nat) (data : Value) : Except String AnalyzerState :=
  match data with
  | Value.dict fs =>
    (match fs.filter (fun p => !(p.1 == METADATA_KEY)) with
     | [(typeName, root)] =>
       analyzeStructure fuel
         { store := extractTopMeta fs, graph := [], trace := [] } typeName root
     | _ => Except.error "Either provide a type_name or ensure data is a dict with a single key")
  | _ => Except.error "Input data must be a dictionary"

/-- The entity graph produced by a fuelled analysis run. -/
def pyAnalyzeFuel (fuel : Nat) (data : Value) : Except String Graph :=
  (pyAnalyzeFull fuel data).map AnalyzerState.graph

/-- The ghost activation trace of a fuelled analysis run. -/
def pyAnalyzeTrace (fuel : Nat) (data : Value) : Except String (List (String × Bool)) :=
  (pyAnalyzeFull fuel data).map AnalyzerState.trace

/-- The analysis with enough fuel for any of the concrete example documents
considered below (their depth is far below 100). -/
def pySchemaAnalyze (data : Value) : Except String Graph :=
  pyAnalyzeFuel 100 data

/-! ## Concrete example documents and the field descriptors they produce -/

/-- `{"user": {"name": "John", "age": 30}}`. -/
def docUserNameAge : Value :=
  Value.dict [("user", Value.dict [("name", Value.str "John"), ("age", Value.int 30)])]

/-- Plain string field `name` with no directives. -/
def nameFd : FieldInfo :=
  { name := "name", python_type := PyType.str, nullable := false }

/-- Plain integer field `age` with no directives. -/
def ageFd : FieldInfo :=
  { name := "age", python_type := PyType.int, nullable := false }

/-- `{"user": {"orders": [{"id": 1, "total": 100.0}]}}`. -/
def docUserOrders : Value :=
  Value.dict [("user", Value.dict
    [("orders", Value.list [Value.dict [("id", Value.int 1), ("total", Value.float)]])])]

/-- The integer field named `id` coming from the order's example data
(distinct from `syntheticIdField`: it carries no primary-key directive). -/
def orderDataIdFd : FieldInfo :=
  { name := "id", python_type := PyType.int, nullable := false }

/-- Plain float field `total`. -/
def totalFd : FieldInfo :=
  { name := "total", python_type := PyType.float, nullable := false }

/-- The `user.orders` descriptor: plural foreign-key relationship to `order`. -/
def ordersFd : FieldInfo :=
  { name := "orders", python_type := PyType.list, nullable := false,
    is_relationship := true, relationship_type := some "order", is_list := true,
    is_foreign_key := true, foreign_key_to := some "order" }

/-- Two fields of entity `t` both carrying an explicit `primary_key` directive. -/
def docTwoPks : Value :=
  Value.dict
    [(METADATA_KEY, Value.dict
        [("t.a", Value.dict [("primary_key", Value.bool true)]),
         ("t.b", Value.dict [("primary_key", Value.bool true)])]),
     ("t", Value.dict [("a", Value.int 1), ("b", Value.int 2)])]

/-- Field `a` of `docTwoPks`, explicitly primary-keyed. -/
def aPkFd : FieldInfo :=
  { name := "a", python_type := PyType.int, nullable := false,
    metadata := [("primary_key", Value.bool true)] }

/-- Field `b` of `docTwoPks`, explicitly primary-keyed. -/
def bPkFd : FieldInfo :=
  { name := "b", python_type := PyType.int, nullable := false,
    metadata := [("primary_key", Value.bool true)] }

/-- A null `entity_type` directive on the list-of-dict field `user.orders`. -/
def docNullEntityDirective : Value :=
  Value.dict
    [(METADATA_KEY, Value.dict [("user.orders", Value.dict [("entity_type", Value.null)])]),
     ("user", Value.dict [("orders", Value.list [Value.dict [("total", Value.int 1)]])])]

/-- The metadata store extracted from `docNullEntityDirective`. -/
def storeNullEntity : MetaStore :=
  [("user.orders", [("entity_type", Value.null)])]

/-- Plain integer field `total` (the order of `docNullEntityDirective`). -/
def totalIntFd : FieldInfo :=
  { name := "total", python_type := PyType.int, nullable := false }

/-- The `user.orders` descriptor produced under the null `entity_type`
directive: still a plural foreign key to `order`. -/
def ordersNullDirFd : FieldInfo :=
  { name := "orders", python_type := PyType.list, nullable := false,
    is_relationship := true, relationship_type := some "order", is_list := true,
    metadata := [("entity_type", Value.null)],
    is_foreign_key := true, foreign_key_to := some "order" }

/-- `{"user": {"prefs": {}}}` — a field whose example value is an empty dict. -/
def docEmptyDict : Value :=
  Value.dict [("user", Value.dict [("prefs", Value.dict [])])]

/-- The `user.prefs` descriptor: the empty dict is treated as a singular
relationship to a brand-new entity `prefs`. -/
def prefsFd : FieldInfo :=
  { name := "prefs", python_type := PyType.dict, nullable := false,
    is_relationship := true, relationship_type := some "prefs",
    is_foreign_key := true, foreign_key_to := some "prefs" }

/-- `{"user": {"name": "J", "address": {"street": "x"}}}`. -/
def docUserAddress : Value :=
  Value.dict [("user", Value.dict
    [("name", Value.str "J"),
     ("address", Value.dict [("street", Value.str "x")])])]

/-- Plain string field `street`. -/
def streetFd : FieldInfo :=
  { name := "street", python_type := PyType.str, nullable := false }

/-- The `user.address` descriptor: singular foreign-key relationship whose
recorded python type is `dict` (the example's runtime type). -/
def addressFd : FieldInfo :=
  { name := "address", python_type := PyType.dict, nullable := false,
    is_relationship := true, relationship_type := some "address",
    is_foreign_key := true, foreign_key_to := some "address" }

/-- A `type: "string"` override together with an `entity_type` directive on a
field whose example value is null. -/
def docTypeAndEntity : Value :=
  Value.dict
    [(METADATA_KEY, Value.dict
        [("user.spouse", Value.dict
            [("type", Value.str "string"), ("entity_type", Value.str "user")])]),
     ("user", Value.dict [("spouse", Value.null)])]

/-- The metadata store extracted from `docTypeAndEntity`. -/
def storeTypeAndEntity : MetaStore :=
  [("user.spouse", [("type", Value.str "string"), ("entity_type", Value.str "user")])]

/-- The `user.spouse` descriptor: the declared `string` override is displaced
by the `Any` placeholder because the value is null and `entity_type` is set. -/
def spouseFd : FieldInfo :=
  { name := "spouse", python_type := PyType.any, nullable := true,
    is_relationship := true, relationship_type := some "user",
    metadata := [("type", Value.str "string"), ("entity_type", Value.str "user")] }

/-- The many-to-many scenario from the specification:
`product.tags` with `is_many_to_many` and a custom association table name. -/
def docManyToMany : Value :=
  Value.dict
    [(METADATA_KEY, Value.dict
        [("product.tags", Value.dict
            [("is_many_to_many", Value.bool true),
             ("association_table_name", Value.str "product_tags")])]),
     ("product", Value.dict
        [("name", Value.str "Widget"),
         ("tags", Value.list [Value.dict [("name", Value.str "x")]])])]

/-- The `product.tags` descriptor: a many-to-many plural relationship. -/
def tagsFd : FieldInfo :=
  { name := "tags", python_type := PyType.list, nullable := false,
    is_relationship := true, relationship_type := some "tag", is_list := true,
    metadata := [("is_many_to_many", Value.bool true),
                 ("association_table_name", Value.str "product_tags")],
    is_many_to_many := true, association_table_name := some "product_tags" }

/-- A document whose nested field resolves to an association-named entity:
`{"t": {"foo_association": {"x": 1}}}`. -/
def docAssocField : Value :=
  Value.dict [("t", Value.dict
    [("foo_association", Value.dict [("x", Value.int 1)])])]

/-- Plain integer field `x`, carrying no primary-key mark. -/
def xFd : FieldInfo :=
  { name := "x", python_type := PyType.int, nullable := false }

/-- The `t.foo_association` descriptor: singular foreign-key relationship to
the association-named entity. -/
def fooAssocFd : FieldInfo :=
  { name := "foo_association", python_type := PyType.dict, nullable := false,
    is_relationship := true, relationship_type := some "foo_association",
    is_foreign_key := true, foreign_key_to := some "foo_association" }

/-! ## Helper lemmas about the finishing pass -/

/-- Inversion for successful sequencing. -/
theorem exBind_ok {α β : Type} {x : Except String α} {f : α → Except String β}
    {b : β} (h : exBind x f = Except.ok b) :
    ∃ a, x = Except.ok a ∧ f a = Except.ok b := by
  cases x with
  | error e => simp [exBind] at h
  | ok a => exact ⟨a, rfl, h⟩

/-- Inversion for the nested-object recursion step: either nothing happened,
or the entity type resolved and an unregistered entity was recursed into. -/
theorem maybeRecurseDict_ok {rec : AnalyzerState → String → Value → Except String AnalyzerState}
    {st : AnalyzerState} {fi : FieldInfo} {eOpt : Option String} {v : Value}
    {st1 : AnalyzerState}
    (h : maybeRecurseDict rec st fi eOpt v = Except.ok st1) :
    st1 = st ∨ ∃ e, eOpt = some e ∧ graphHasKey st.graph e = false ∧
      rec st e (if e == METADATA_KEY then Value.dict [] else v) = Except.ok st1 := by
  unfold maybeRecurseDict at h
  split at h
  · split at h
    · rename_i e
      split at h
      · cases h; exact Or.inl rfl
      · rename_i hkey
        refine Or.inr ⟨e, rfl, ?_, h⟩
        cases hb : graphHasKey st.graph e
        · rfl
        · exact absurd hb hkey
    · cases h; exact Or.inl rfl
  · cases h; exact Or.inl rfl

/-- Inversion for the list-of-dicts recursion step. -/
theorem maybeRecurseList_ok {rec : AnalyzerState → String → Value → Except String AnalyzerState}
    {st : AnalyzerState} {fi : FieldInfo} {e : String} {d : List (String × Value)}
    {st1 : AnalyzerState}
    (h : maybeRecurseList rec st fi e d = Except.ok st1) :
    st1 = st ∨ graphHasKey st.graph e = false ∧
      rec st e (if e == METADATA_KEY then Value.dict [] else Value.dict d) =
        Except.ok st1 := by
  unfold maybeRecurseList at h
  split at h
  · split at h
    · cases h; exact Or.inl rfl
    · rename_i hkey
      refine Or.inr ⟨?_, h⟩
      cases hb : graphHasKey st.graph e
      · rfl
      · exact absurd hb hkey
  · cases h; exact Or.inl rfl

/-- The synthetic identity field is marked primary key. -/
theorem isPkField_syntheticIdField : isPkField syntheticIdField = true := rfl

/-- Membership in the finishing pass's output, characterized entrywise. -/
theorem addIdPass_mem {g : Graph} {n : String} {fs : List FieldInfo}
    (h : (n, fs) ∈ addIdPass g) :
    ∃ fs₀, (n, fs₀) ∈ g ∧
      fs = (if strEndsWith n "_association" = true then fs₀
            else if fs₀.any isPkField = true then fs₀
            else syntheticIdField :: fs₀) := by
  unfold addIdPass at h
  rcases List.mem_map.mp h with ⟨⟨k, fs₀⟩, hmem, heq⟩
  by_cases h1 : strEndsWith k "_association" = true
  · simp only [h1, if_true] at heq
    obtain ⟨hk, hf⟩ := Prod.mk.injEq .. ▸ heq
    subst hk; subst hf
    exact ⟨fs₀, hmem, by simp [h1]⟩
  · by_cases h2 : fs₀.any isPkField = true
    · simp only [h1, h2, if_true, if_false] at heq
      obtain ⟨hk, hf⟩ := Prod.mk.injEq .. ▸ heq
      subst hk; subst hf
      exact ⟨fs₀, hmem, by simp [h1, h2]⟩
    · simp only [h1, h2, if_false] at heq
      obtain ⟨hk, hf⟩ := Prod.mk.injEq .. ▸ heq
      subst hk; subst hf
      exact ⟨fs₀, hmem, by simp [h1, h2]⟩

/-- Every successful `analyze_structure` activation ends by applying the
finishing pass to the graph it returns. -/
theorem analyzeStructure_result_graph {fuel : Nat} {st0 : AnalyzerState}
    {tn : String} {root : Value} {st : AnalyzerState}
    (h : analyzeStructure fuel st0 tn root = Except.ok st) :
    ∃ g₀, st.graph = addIdPass g₀ := by
  cases fuel with
  | zero => simp [analyzeStructure] at h
  | succ fuel =>
    unfold analyzeStructure at h
    split at h
    · obtain ⟨r, hr, h⟩ := exBind_ok h
      cases h
      exact ⟨_, rfl⟩
    · simp at h

/-- A successful top-level run returns a graph in the image of the finishing
pass. -/
theorem pyAnalyzeFull_result_graph {fuel : Nat} {data : Value}
    {st : AnalyzerState} (h : pyAnalyzeFull fuel data = Except.ok st) :
    ∃ g₀, st.graph = addIdPass g₀ := by
  unfold pyAnalyzeFull at h
  split at h
  · split at h
    · exact analyzeStructure_result_graph h
    · simp at h
  · simp at h

/-! ## The many-to-many exclusivity invariant -/

/-- Exclusivity of a single descriptor: many-to-many forces plural and
non-foreign-key. -/
def M2MOk (f : FieldInfo) : Prop :=
  f.is_many_to_many = true → f.is_list = true ∧ f.is_foreign_key = false

/-- Exclusivity over every descriptor of every entity of a graph. -/
def GraphM2M (g : Graph) : Prop :=
  ∀ p ∈ g, ∀ f ∈ p.2, M2MOk f

/-- The relationship-shaping step only sets `is_many_to_many` in the branch
that also sets `is_list := true` and `is_foreign_key := false`. -/
theorem shapeField_m2m {store : MetaStore} {m : FieldMeta} {base : FieldInfo}
    {v : Value} {fieldName parentType : String}
    (hb : base.is_many_to_many = false) :
    M2MOk (shapeField store m base v fieldName parentType) := by
  unfold M2MOk shapeField
  repeat' split
  all_goals intro h
  all_goals simp_all

/-- Every descriptor produced by `_analyze_value` satisfies exclusivity. -/
theorem analyzeValue_m2m {store : MetaStore} {v : Value}
    {fieldName parentType : String} {fi : FieldInfo}
    (h : analyzeValue store v fieldName parentType = Except.ok fi) :
    M2MOk fi := by
  simp only [analyzeValue] at h
  split at h
  · cases h; intro hx; simp at hx
  · split at h
    · simp at h
    · cases h
      exact shapeField_m2m rfl

/-- The synthetic identity field satisfies exclusivity. -/
theorem syntheticIdField_m2m : M2MOk syntheticIdField := by
  intro h; simp [syntheticIdField] at h

/-- `dictSet` preserves the graph invariant when the inserted field list
satisfies it. -/
theorem GraphM2M_dictSet {g : Graph} {k : String} {fs : List FieldInfo}
    (hg : GraphM2M g) (hfs : ∀ f ∈ fs, M2MOk f) :
    GraphM2M (dictSet g k fs) := by
  unfold dictSet
  split
  · intro p hp f hf
    rcases List.mem_map.mp hp with ⟨q, hq, heq⟩
    by_cases hqk : (q.1 == k) = true
    · rw [if_pos hqk] at heq
      subst heq
      exact hfs f hf
    · rw [if_neg hqk] at heq
      subst heq
      exact hg q hq f hf
  · intro p hp f hf
    rcases List.mem_append.mp hp with hp | hp
    · exact hg p hp f hf
    · rw [List.mem_singleton] at hp
      subst hp
      exact hfs f hf

/-- The finishing pass preserves the graph invariant. -/
theorem GraphM2M_addIdPass {g : Graph} (hg : GraphM2M g) :
    GraphM2M (addIdPass g) := by
  intro p hp f hf
  obtain ⟨n, fs⟩ := p
  obtain ⟨fs₀, hm0, hfs⟩ := addIdPass_mem hp
  by_cases h1 : strEndsWith n "_association" = true
  · rw [h1, if_pos rfl] at hfs
    subst hfs
    exact hg _ hm0 f hf
  · have h1' : strEndsWith n "_association" = false := by
      cases hb : strEndsWith n "_association"
      · rfl
      · exact absurd hb h1
    rw [h1'] at hfs
    simp only [Bool.false_eq_true, if_false] at hfs
    by_cases h2 : fs₀.any isPkField = true
    · rw [h2, if_pos rfl] at hfs
      subst hfs
      exact hg _ hm0 f hf
    · have h2' : fs₀.any isPkField = false := by
        cases hb : fs₀.any isPkField
        · rfl
        · exact absurd hb h2
      rw [h2', if_neg (by simp)] at hfs
      subst hfs
      rcases List.mem_cons.mp hf with hf | hf
      · subst hf; exact syntheticIdField_m2m
      · exact hg _ hm0 f hf

/-- The per-field loop preserves the graph invariant and only produces
exclusivity-respecting descriptors, provided the nested-analysis call does. -/
theorem analyzeLoopF_m2m
    {rec : AnalyzerState → String → Value → Except String AnalyzerState}
    (hrec : ∀ st e root st', rec st e root = Except.ok st' →
       GraphM2M st.graph → GraphM2M st'.graph) :
    ∀ (fields : List (String × Value)) (tn : String) (st st' : AnalyzerState)
      (fis : List FieldInfo),
      analyzeLoopF rec tn st fields = Except.ok (st', fis) →
      GraphM2M st.graph →
      GraphM2M st'.graph ∧ ∀ f ∈ fis, M2MOk f := by
  intro fields
  induction fields with
  | nil =>
    intro tn st st' fis h hg
    unfold analyzeLoopF at h
    cases h
    exact ⟨hg, by simp⟩
  | cons p rest ih =>
    intro tn st st' fis h hg
    obtain ⟨fieldName, v⟩ := p
    unfold analyzeLoopF at h
    split at h
    · exact ih tn st st' fis h hg
    · split at h
      · -- dict field
        obtain ⟨fi, hfi, h⟩ := exBind_ok h
        obtain ⟨st1, hnext, h⟩ := exBind_ok h
        obtain ⟨⟨st2, fis2⟩, hrest, h⟩ := exBind_ok h
        cases h
        have hst1 : GraphM2M st1.graph := by
          rcases maybeRecurseDict_ok hnext with rfl | ⟨e, _, _, hr⟩
          · exact hg
          · exact hrec _ _ _ _ hr hg
        obtain ⟨hg2, hfis2⟩ := ih tn st1 st2 fis2 hrest hst1
        refine ⟨hg2, ?_⟩
        intro f hf
        rcases List.mem_cons.mp hf with hf | hf
        · subst hf; exact analyzeValue_m2m hfi
        · exact hfis2 f hf
      · -- list-of-dict field
        obtain ⟨fi, hfi, h⟩ := exBind_ok h
        obtain ⟨st1, hnext, h⟩ := exBind_ok h
        obtain ⟨⟨st2, fis2⟩, hrest, h⟩ := exBind_ok h
        cases h
        have hst1 : GraphM2M st1.graph := by
          rcases maybeRecurseList_ok hnext with rfl | ⟨_, hr⟩
          · exact hg
          · exact hrec _ _ _ _ hr hg
        obtain ⟨hg2, hfis2⟩ := ih tn st1 st2 fis2 hrest hst1
        refine ⟨hg2, ?_⟩
        intro f hf
        rcases List.mem_cons.mp hf with hf | hf
        · subst hf; exact analyzeValue_m2m hfi
        · exact hfis2 f hf
      · -- scalar / other field
        obtain ⟨fi, hfi, h⟩ := exBind_ok h
        obtain ⟨⟨st2, fis2⟩, hrest, h⟩ := exBind_ok h
        cases h
        obtain ⟨hg2, hfis2⟩ := ih tn st st2 fis2 hrest hg
        refine ⟨hg2, ?_⟩
        intro f hf
        rcases List.mem_cons.mp hf with hf | hf
        · subst hf; exact analyzeValue_m2m hfi
        · exact hfis2 f hf

/-- The state-changing helpers never touch the graph. -/
theorem mergeLocalMeta_graph (st : AnalyzerState) (fs : List (String × Value)) :
    (mergeLocalMeta st fs).graph = st.graph := by
  unfold mergeLocalMeta
  split <;> rfl

/-- Recording an activation never touches the graph. -/
theorem recordActivation_graph (st : AnalyzerState) (tn : String) :
    (recordActivation st tn).graph = st.graph := rfl

/-- Any successful `analyze_structure` activation preserves the graph
invariant. -/
theorem analyzeStructure_m2m :
    ∀ (fuel : Nat) (st : AnalyzerState) (tn : String) (root : Value)
      (st' : AnalyzerState),
      analyzeStructure fuel st tn root = Except.ok st' →
      GraphM2M st.graph → GraphM2M st'.graph := by
  intro fuel
  induction fuel with
  | zero =>
    intro st tn root st' h hg
    simp [analyzeStructure] at h
  | succ fuel ih =>
    intro st tn root st' h hg
    unfold analyzeStructure at h
    split at h
    · obtain ⟨⟨st3, fields⟩, heq, h⟩ := exBind_ok h
      cases h
      obtain ⟨hg3, hfis⟩ :=
        analyzeLoopF_m2m (fun st e root st' hr hgr => ih st e root st' hr hgr)
          _ _ _ _ _ heq
          (by rw [mergeLocalMeta_graph, recordActivation_graph]; exact hg)
      exact GraphM2M_addIdPass (GraphM2M_dictSet hg3 hfis)
    · simp at h

/-! ## Registration order, no-re-entry, and key uniqueness (claim C7) -/

/-- Every ghost activation event was recorded against an unregistered name. -/
def traceAllFalse (t : List (String × Bool)) : Prop :=
  t.all (fun e => !e.2) = true

/-- `dictSet` registers its key. -/
theorem graphHasKey_dictSet_self (g : Graph) (k : String) (v : List FieldInfo) :
    graphHasKey (dictSet g k v) k = true := by
  unfold dictSet graphHasKey
  split
  · rename_i hany
    rcases List.any_eq_true.mp hany with ⟨q, hq, hqk⟩
    exact List.any_eq_true.mpr
      ⟨(k, v), List.mem_map.mpr ⟨q, hq, by rw [if_pos hqk]⟩, by simp⟩
  · exact List.any_eq_true.mpr ⟨(k, v), by simp, by simp⟩

/-- `dictSet` keeps every registered key registered. -/
theorem graphHasKey_dictSet_mono {g : Graph} {k' : String} (k : String)
    (v : List FieldInfo) (h : graphHasKey g k' = true) :
    graphHasKey (dictSet g k v) k' = true := by
  unfold dictSet graphHasKey
  unfold graphHasKey at h
  rcases List.any_eq_true.mp h with ⟨q, hq, hqk⟩
  split
  · refine List.any_eq_true.mpr ?_
    by_cases hk : (q.1 == k) = true
    · refine ⟨(k, v), List.mem_map.mpr ⟨q, hq, by rw [if_pos hk]⟩, ?_⟩
      have h1 : q.1 = k := beq_iff_eq.mp hk
      have h2 : q.1 = k' := beq_iff_eq.mp hqk
      simp [← h1, h2]
    · exact ⟨q, List.mem_map.mpr ⟨q, hq, by rw [if_neg hk]⟩, hqk⟩
  · exact List.any_eq_true.mpr ⟨q, List.mem_append_left _ hq, hqk⟩

/-- `dictSet` keeps the key list duplicate-free. -/
theorem nodup_dictSet {g : Graph} (k : String) (v : List FieldInfo)
    (h : (g.map Prod.fst).Nodup) :
    ((dictSet g k v).map Prod.fst).Nodup := by
  unfold dictSet
  split
  · rename_i hany
    have hkeys : (g.map (fun p => if p.1 == k then (k, v) else p)).map Prod.fst =
        g.map Prod.fst := by
      rw [List.map_map]
      apply List.map_congr_left
      intro q _
      by_cases hk : (q.1 == k) = true
      · simp only [Function.comp, if_pos hk]
        exact (beq_iff_eq.mp hk).symm
      · simp only [Function.comp, if_neg hk]
    rw [hkeys]
    exact h
  · rename_i hany
    have hnotin : k ∉ g.map Prod.fst := by
      intro hk
      rcases List.mem_map.mp hk with ⟨q, hq, hq1⟩
      exact hany (List.any_eq_true.mpr ⟨q, hq, by rw [hq1]; exact beq_self_eq_true k⟩)
    rw [List.map_append]
    simp only [List.map_cons, List.map_nil]
    exact List.Nodup.append h (List.nodup_singleton k)
      (fun a ha hb => by
        rw [List.mem_singleton] at hb
        subst hb
        exact hnotin ha)

/-- The finishing pass does not change the key list. -/
theorem addIdPass_keys (g : Graph) :
    (addIdPass g).map Prod.fst = g.map Prod.fst := by
  unfold addIdPass
  rw [List.map_map]
  apply List.map_congr_left
  intro q _
  by_cases h1 : strEndsWith q.1 "_association" = true
  · simp [Function.comp, h1]
  · by_cases h2 : q.2.any isPkField = true
    · simp [Function.comp, h1, h2]
    · simp [Function.comp, h1, h2]

/-- The finishing pass does not change which keys are registered. -/
theorem graphHasKey_addIdPass (g : Graph) (k : String) :
    graphHasKey (addIdPass g) k = graphHasKey g k := by
  induction g with
  | nil => rfl
  | cons p rest ih =>
    unfold addIdPass at ih ⊢
    simp only [List.map_cons, graphHasKey, List.any_cons] at ih ⊢
    rw [ih]
    by_cases h1 : strEndsWith p.1 "_association" = true
    · simp [h1]
    · by_cases h2 : p.2.any isPkField = true
      · simp [h1, h2]
      · simp [h1, h2]

/-- The state relationship established by a completed analysis step: the
all-unregistered trace property is preserved, registered keys stay
registered, duplicate-freedom of keys is preserved, and every NEW trace
entry's entity is registered by the step's end. -/
def StepInv (a b : AnalyzerState) : Prop :=
  (traceAllFalse a.trace → traceAllFalse b.trace) ∧
  (∀ k, graphHasKey a.graph k = true → graphHasKey b.graph k = true) ∧
  ((a.graph.map Prod.fst).Nodup → (b.graph.map Prod.fst).Nodup) ∧
  (∀ e ∈ b.trace, e ∈ a.trace ∨ graphHasKey b.graph e.1 = true)

/-- Reflexivity of `StepInv`. -/
theorem StepInv.rfl (a : AnalyzerState) : StepInv a a :=
  ⟨id, fun _ hk => hk, id, fun _ he => Or.inl he⟩

/-- Transitivity of `StepInv`. -/
theorem StepInv.trans {a b c : AnalyzerState}
    (hab : StepInv a b) (hbc : StepInv b c) : StepInv a c := by
  refine ⟨fun h => hbc.1 (hab.1 h), fun k hk => hbc.2.1 k (hab.2.1 k hk),
    fun h => hbc.2.2.1 (hab.2.2.1 h), ?_⟩
  intro e he
  rcases hbc.2.2.2 e he with hbtr | hkey
  · rcases hab.2.2.2 e hbtr with hatr | hkey1
    · exact Or.inl hatr
    · exact Or.inr (hbc.2.1 _ hkey1)
  · exact Or.inr hkey

/-- Helper trace equations for the state-shaping functions. -/
theorem recordActivation_trace (st : AnalyzerState) (tn : String) :
    (recordActivation st tn).trace =
      st.trace ++ [(tn, graphHasKey st.graph tn)] := Eq.refl _

/-- Merging local metadata never touches the trace. -/
theorem mergeLocalMeta_trace (st : AnalyzerState) (fs : List (String × Value)) :
    (mergeLocalMeta st fs).trace = st.trace := by
  unfold mergeLocalMeta
  split <;> rfl

/-- The per-field loop establishes `StepInv`, provided every nested-analysis
call (which the loop only makes on unregistered entity names) does. -/
theorem analyzeLoopF_stinv
    {rec : AnalyzerState → String → Value → Except String AnalyzerState}
    (hrec : ∀ st e root st', rec st e root = Except.ok st' →
      graphHasKey st.graph e = false → StepInv st st') :
    ∀ (fields : List (String × Value)) (tn : String) (st st' : AnalyzerState)
      (fis : List FieldInfo),
      analyzeLoopF rec tn st fields = Except.ok (st', fis) →
      StepInv st st' := by
  intro fields
  induction fields with
  | nil =>
    intro tn st st' fis h
    unfold analyzeLoopF at h
    cases h
    exact StepInv.rfl st
  | cons p rest ih =>
    intro tn st st' fis h
    obtain ⟨fieldName, v⟩ := p
    unfold analyzeLoopF at h
    split at h
    · exact ih tn st st' fis h
    · split at h
      · obtain ⟨fi, hfi, h⟩ := exBind_ok h
        obtain ⟨st1, hnext, h⟩ := exBind_ok h
        obtain ⟨⟨st2, fis2⟩, hrest, h⟩ := exBind_ok h
        cases h
        have hstep : StepInv st st1 := by
          rcases maybeRecurseDict_ok hnext with rfl | ⟨_, _, hkey, hr⟩
          · exact StepInv.rfl _
          · exact hrec _ _ _ _ hr hkey
        exact StepInv.trans hstep (ih tn st1 st2 fis2 hrest)
      · obtain ⟨fi, hfi, h⟩ := exBind_ok h
        obtain ⟨st1, hnext, h⟩ := exBind_ok h
        obtain ⟨⟨st2, fis2⟩, hrest, h⟩ := exBind_ok h
        cases h
        have hstep : StepInv st st1 := by
          rcases maybeRecurseList_ok hnext with rfl | ⟨hkey, hr⟩
          · exact StepInv.rfl _
          · exact hrec _ _ _ _ hr hkey
        exact StepInv.trans hstep (ih tn st1 st2 fis2 hrest)
      · obtain ⟨fi, hfi, h⟩ := exBind_ok h
        obtain ⟨⟨st2, fis2⟩, hrest, h⟩ := exBind_ok h
        cases h
        exact ih tn st st2 fis2 hrest

/-- A completed `analyze_structure` activation on an unregistered entity name
establishes `StepInv` and registers the name. -/
theorem analyzeStructure_stinv :
    ∀ (fuel : Nat) (st : AnalyzerState) (tn : String) (root : Value)
      (st' : AnalyzerState),
      analyzeStructure fuel st tn root = Except.ok st' →
      graphHasKey st.graph tn = false →
      StepInv st st' ∧ graphHasKey st'.graph tn = true := by
  intro fuel
  induction fuel with
  | zero =>
    intro st tn root st' h hkey
    simp [analyzeStructure] at h
  | succ fuel ih =>
    intro st tn root st' h hkey
    unfold analyzeStructure at h
    split at h
    · rename_i fs0
      obtain ⟨⟨st3, fields⟩, heq, h⟩ := exBind_ok h
      cases h
      have hloop := analyzeLoopF_stinv
        (fun st e root st' hr hg => (ih st e root st' hr hg).1)
        _ _ _ _ _ heq
      have hg0 : (mergeLocalMeta (recordActivation st tn) fs0).graph = st.graph := by
        rw [mergeLocalMeta_graph, recordActivation_graph]
      have ht0 : (mergeLocalMeta (recordActivation st tn) fs0).trace =
          st.trace ++ [(tn, false)] := by
        rw [mergeLocalMeta_trace, recordActivation_trace, hkey]
      simp only [StepInv, hg0, ht0] at hloop
      dsimp only
      have hkeyEnd : graphHasKey
          (addIdPass (dictSet st3.graph tn fields)) tn = true := by
        rw [graphHasKey_addIdPass]
        exact graphHasKey_dictSet_self st3.graph tn fields
      refine ⟨⟨?_, ?_, ?_, ?_⟩, hkeyEnd⟩
      · intro htf
        apply hloop.1
        unfold traceAllFalse at htf ⊢
        rw [List.all_append, htf]
        rfl
      · intro k hk
        rw [graphHasKey_addIdPass]
        exact graphHasKey_dictSet_mono tn fields (hloop.2.1 k hk)
      · intro hnd
        rw [addIdPass_keys]
        exact nodup_dictSet tn fields (hloop.2.2.1 hnd)
      · intro e he
        rcases hloop.2.2.2 e he with hmem | hkey1
        · rcases List.mem_append.mp hmem with hmem | hmem
          · exact Or.inl hmem
          · rw [List.mem_singleton] at hmem
            subst hmem
            exact Or.inr hkeyEnd
        · refine Or.inr ?_
          rw [graphHasKey_addIdPass]
          exact graphHasKey_dictSet_mono tn fields hkey1
    · simp at h

/-- Without an `entity_type` directive, nested-dict entity-type resolution
always produces some entity name (never `None`). -/
theorem determineEntityType_no_directive {store : MetaStore} {v : Value}
    {fieldName parentType : String}
    (hm : alookup (getFieldMeta store parentType fieldName) "entity_type" =
      Option.none) :
    ∃ e, determineEntityType store v fieldName parentType = some e := by
  simp only [determineEntityType, hm]
  split
  · exact ⟨_, rfl⟩
  · split
    · exact ⟨_, rfl⟩
    · exact ⟨_, rfl⟩

/-- The shaping step changes the recorded python type only in the
null-value-with-`entity_type`-directive branch, where it becomes `Any`. -/
theorem shapeField_python_type (store : MetaStore) (m : FieldMeta)
    (base : FieldInfo) (v : Value) (fieldName parentType : String) :
    (shapeField store m base v fieldName parentType).python_type =
      (if isNull v = true ∧ (alookup m "entity_type").isSome = true then
        PyType.any
      else base.python_type) := by
  unfold shapeField
  by_cases hn : isNull v = true
  · rw [if_pos hn]
    cases het : alookup m "entity_type" with
    | none => simp [hn, het]
    | some et => cases et <;> simp [hn, het]
  · rw [if_neg hn]
    have hrhs : ¬(isNull v = true ∧ (alookup m "entity_type").isSome = true) :=
      fun hc => hn hc.1
    rw [if_neg hrhs]
    repeat' split
    all_goals rfl

/-- The descriptor produced for a field whose example value is an empty
list with no directives interpreted. -/
def fiEmptyList : FieldInfo :=
  { name := "xs", python_type := PyType.list, nullable := false, is_list := true }

/-! ## First-element dependence of list-of-dict fields (claim C10) -/

mutual
/-- Two documents that agree everywhere except possibly in the elements AFTER
the first of a non-empty list whose first element is a dict.  Entries under
the reserved metadata key must agree exactly (they are configuration, not
analyzed example data). -/
inductive FirstEq : Value → Value → Prop where
  | refl (v : Value) : FirstEq v v
  | dict {fs fs' : List (String × Value)} :
      FirstEqFields fs fs' → FirstEq (Value.dict fs) (Value.dict fs')
  | list {d : List (String × Value)} {h' : Value} {t t' : List Value} :
      FirstEq (Value.dict d) h' →
      FirstEq (Value.list (Value.dict d :: t)) (Value.list (h' :: t'))

/-- Pointwise `FirstEq` over dict entries, with exact agreement required on
the reserved metadata key. -/
inductive FirstEqFields : List (String × Value) → List (String × Value) → Prop where
  | nil : FirstEqFields [] []
  | cons {k : String} {v v' : Value} {r r' : List (String × Value)} :
      (k = METADATA_KEY → v = v') → FirstEq v v' → FirstEqFields r r' →
      FirstEqFields ((k, v) :: r) ((k, v') :: r')
end

/-- Related dicts have identical entries under the reserved metadata key. -/
theorem FirstEqFields_alookup_meta :
    ∀ {fs fs' : List (String × Value)}, FirstEqFields fs fs' →
      alookup fs METADATA_KEY = alookup fs' METADATA_KEY := by
  intro fs
  induction fs with
  | nil =>
    intro fs' h
    cases h
    rfl
  | cons p rest ih =>
    intro fs' h
    cases h with
    | cons hmk hv hr =>
      rename_i k v v' r'
      by_cases hk : k = METADATA_KEY
      · rw [hmk hk]
        subst hk
        simp [alookup, List.find?]
      · have hbeq : (k == METADATA_KEY) = false := beq_eq_false_iff_ne.mpr hk
        simpa [alookup, List.find?, hbeq] using ih hr

/-- Related dicts remain related after stripping the reserved metadata key. -/
theorem FirstEqFields_filter :
    ∀ {fs fs' : List (String × Value)}, FirstEqFields fs fs' →
      FirstEqFields (fs.filter (fun p => !(p.1 == METADATA_KEY)))
        (fs'.filter (fun p => !(p.1 == METADATA_KEY))) := by
  intro fs
  induction fs with
  | nil =>
    intro fs' h
    cases h
    exact FirstEqFields.nil
  | cons p rest ih =>
    intro fs' h
    cases h with
    | cons hmk hv hr =>
      rename_i k v v' r'
      by_cases hk : (k == METADATA_KEY) = true
      · simpa [List.filter_cons, hk] using ih hr
      · have hk' : (!(k == METADATA_KEY)) = true := by
          cases hb : (k == METADATA_KEY)
          · rfl
          · exact absurd hb hk
        simp only [List.filter_cons, hk']
        exact FirstEqFields.cons hmk hv (ih hr)

/-- Field analysis depends on a dict value only through its being a dict, and
on a list value only through its head's being a dict: related values analyze
identically. -/
theorem analyzeValue_congr {store : MetaStore} {fieldName parentType : String}
    {v v' : Value} (h : FirstEq v v') :
    analyzeValue store v fieldName parentType =
      analyzeValue store v' fieldName parentType := by
  cases h with
  | refl => rfl
  | dict hfs => rfl
  | list hh =>
    cases hh with
    | refl => rfl
    | dict hfs2 => rfl

/-- Congruence of the nested-object recursion step in its value argument. -/
theorem maybeRecurseDict_congr
    {rec : AnalyzerState → String → Value → Except String AnalyzerState}
    {st : AnalyzerState} {fi : FieldInfo} {eOpt : Option String}
    {v v' : Value}
    (hrec : ∀ e, rec st e v = rec st e v') :
    maybeRecurseDict rec st fi eOpt v = maybeRecurseDict rec st fi eOpt v' := by
  unfold maybeRecurseDict
  split
  · split
    · split
      · rfl
      · split
        · rfl
        · exact hrec _
    · rfl
  · rfl

/-- Congruence of the list recursion step in its first-element argument. -/
theorem maybeRecurseList_congr
    {rec : AnalyzerState → String → Value → Except String AnalyzerState}
    {st : AnalyzerState} {fi : FieldInfo} {e : String}
    {d d' : List (String × Value)}
    (hrec : rec st e (Value.dict d) = rec st e (Value.dict d')) :
    maybeRecurseList rec st fi e d = maybeRecurseList rec st fi e d' := by
  unfold maybeRecurseList
  split
  · split
    · rfl
    · split
      · rfl
      · exact hrec
  · rfl

/-- Right congruence of sequencing (no function extensionality needed). -/
theorem exBind_congr_right {α β : Type} {x : Except String α}
    {f g : α → Except String β} (h : ∀ a, f a = g a) :
    exBind x f = exBind x g := by
  cases x with
  | error e => rfl
  | ok a => exact h a

/-- The per-field loop analyzes related field lists identically, provided the
nested-analysis call does. -/
theorem analyzeLoopF_congr
    {rec : AnalyzerState → String → Value → Except String AnalyzerState}
    (hrec : ∀ st tn d d', FirstEq d d' → rec st tn d = rec st tn d') :
    ∀ (fs fs' : List (String × Value)) (tn : String) (st : AnalyzerState),
      FirstEqFields fs fs' →
      analyzeLoopF rec tn st fs = analyzeLoopF rec tn st fs' := by
  intro fs
  induction fs with
  | nil =>
    intro fs' tn st h
    cases h
    rfl
  | cons p rest ih =>
    intro fs' tn st h
    cases h with
    | cons hmk hv hr =>
      rename_i k v v' r'
      unfold analyzeLoopF
      split
      · exact ih r' tn st hr
      · cases hv with
        | refl =>
          cases v with
          | dict fs2 =>
            apply exBind_congr_right
            intro fi
            apply exBind_congr_right
            intro st1
            rw [ih r' tn st1 hr]
          | list elems =>
            cases elems with
            | nil =>
              apply exBind_congr_right
              intro fi
              rw [ih r' tn st hr]
            | cons hd tl =>
              cases hd <;>
                first
                | (apply exBind_congr_right
                   intro fi
                   apply exBind_congr_right
                   intro st1
                   rw [ih r' tn st1 hr])
                | (apply exBind_congr_right
                   intro fi
                   rw [ih r' tn st hr])
          | _ =>
            apply exBind_congr_right
            intro fi
            rw [ih r' tn st hr]
        | dict hfs2 =>
          rw [analyzeValue_congr (FirstEq.dict hfs2)]
          apply exBind_congr_right
          intro fi
          rw [maybeRecurseDict_congr
            (fun e => hrec st e _ _ (FirstEq.dict hfs2))]
          apply exBind_congr_right
          intro st1
          rw [ih r' tn st1 hr]
        | @list d h' t t' hh =>
          have hd' : ∃ d2, h' = Value.dict d2 ∧
              FirstEq (Value.dict d) (Value.dict d2) := by
            cases hh with
            | refl => exact ⟨d, Eq.refl _, FirstEq.refl _⟩
            | dict hfs2 => exact ⟨_, Eq.refl _, FirstEq.dict hfs2⟩
          obtain ⟨d2, rfl, hdd⟩ := hd'
          rw [analyzeValue_congr (@FirstEq.list d (Value.dict d2) t t' hdd)]
          apply exBind_congr_right
          intro fi
          rw [maybeRecurseList_congr (hrec st _ _ _ hdd)]
          apply exBind_congr_right
          intro st1
          rw [ih r' tn st1 hr]

/-- Merging local metadata from related dicts gives equal states. -/
theorem mergeLocalMeta_congr {st : AnalyzerState}
    {fs fs' : List (String × Value)} (h : FirstEqFields fs fs') :
    mergeLocalMeta st fs = mergeLocalMeta st fs' := by
  unfold mergeLocalMeta
  rw [FirstEqFields_alookup_meta h]

/-- A full activation analyzes related root documents identically. -/
theorem analyzeStructure_congr :
    ∀ (fuel : Nat) (st : AnalyzerState) (tn : String) (d d' : Value),
      FirstEq d d' →
      analyzeStructure fuel st tn d = analyzeStructure fuel st tn d' := by
  intro fuel
  induction fuel with
  | zero => intro st tn d d' h; rfl
  | succ fuel ih =>
    intro st tn d d' h
    cases h with
    | refl => rfl
    | dict hfs =>
      simp only [analyzeStructure]
      rw [@mergeLocalMeta_congr (recordActivation st tn) _ _ hfs,
        analyzeLoopF_congr ih _ _ tn _ (FirstEqFields_filter hfs)]
    | list hh => rfl

/-! ## Claim theorems -/

/-- Claim C1: analyzing `{"user": {"name": "John", "age": 30}}` produces a
graph with exactly one entity, `"user"`, whose fields are, in order, the
synthetic non-nullable integer primary-key field `id`, the string field
`name`, and the integer field `age`. -/
theorem claim1_user_name_age :
    pySchemaAnalyze docUserNameAge =
      Except.ok [("user", [syntheticIdField, nameFd, ageFd])] := rfl

/-- Claim C4: in the graph produced by any successful analysis run, every
field descriptor with `is_many_to_many = true` has `is_list = true` and
`is_foreign_key = false`. -/
theorem claim4_m2m_exclusivity (fuel : Nat) (data : Value) (g : Graph)
    (h : pyAnalyzeFuel fuel data = Except.ok g)
    (n : String) (fs : List FieldInfo) (f : FieldInfo)
    (hmem : (n, fs) ∈ g) (hf : f ∈ fs) (hm2m : f.is_many_to_many = true) :
    f.is_list = true ∧ f.is_foreign_key = false := by
  unfold pyAnalyzeFuel at h
  cases hfull : pyAnalyzeFull fuel data with
  | error e => rw [hfull] at h; simp [Except.map] at h
  | ok st =>
    rw [hfull] at h
    simp only [Except.map] at h
    cases h
    have hst : GraphM2M st.graph := by
      unfold pyAnalyzeFull at hfull
      split at hfull
      · split at hfull
        · exact analyzeStructure_m2m _ _ _ _ _ hfull (by intro p hp; simp at hp)
        · simp at hfull
      · simp at hfull
    exact hst (n, fs) hmem f hf hm2m

/-- Claim C4 witness: the many-to-many scenario `docManyToMany`
(`product.tags` with an `is_many_to_many` directive) instantiates the
invariant on its concrete run. -/
theorem claim4_witness : tagsFd.is_list = true ∧ tagsFd.is_foreign_key = false :=
  claim4_m2m_exclusivity 100 docManyToMany
    [("tag", [syntheticIdField, nameFd]),
     ("product", [syntheticIdField, nameFd, tagsFd])] rfl
    "product" [syntheticIdField, nameFd, tagsFd] tagsFd
    (List.Mem.tail _ (List.Mem.head _))
    (List.Mem.tail _ (List.Mem.tail _ (List.Mem.head _))) rfl

/-- Claim C5: analyzing `{"user": {"orders": [{"id": 1, "total": 100.0}]}}`
produces a graph containing the entity `"order"` (singularized from the
plural field name) in addition to `"user"`, and `user.orders` is a
relationship descriptor with `is_list = true`, `is_foreign_key = true` and
relationship target `"order"` (see `ordersFd`). -/
theorem claim5_user_orders :
    pySchemaAnalyze docUserOrders =
      Except.ok [("order", [syntheticIdField, orderDataIdFd, totalFd]),
                 ("user", [syntheticIdField, ordersFd])] := rfl

/-- Claim C2 counterexample: with explicit `primary_key` directives on both
`t.a` and `t.b`, the analyzed entity `"t"` (whose name does not end in
`"_association"`) ends up with TWO fields marked primary key, not exactly
one, and no synthetic `id` field is prepended. -/
theorem claim2_counterexample_two_pks :
    pySchemaAnalyze docTwoPks = Except.ok [("t", [aPkFd, bPkFd])] ∧
    List.countP isPkField [aPkFd, bPkFd] = 2 ∧
    strEndsWith "t" "_association" = false :=
  ⟨rfl, rfl, rfl⟩

/-- Claim C2 (amended): after any successful analysis run, every entity whose
name does not end in `"_association"` has AT LEAST one field marked primary
key; its field list is either the analyzed list untouched (when some field
already carried a truthy `primary_key` directive) or the analyzed list with
the synthetic non-nullable integer `id` field prepended as first field, in
which case that synthetic field is the single primary-key field.  (The
original "exactly one" fails when several fields carry explicit `primary_key`
directives, see `claim2_counterexample_two_pks`.)  Entities whose name ends
in `"_association"` receive no synthetic primary-key field: the finishing
pass carries every association-named entry over verbatim, and the complete
run on `docAssocField` leaves its association-named entity with zero
primary-key fields while the sibling entity receives the synthetic `id`. -/
theorem claim2_amended :
    (∀ (fuel : Nat) (data : Value) (g : Graph),
        pyAnalyzeFuel fuel data = Except.ok g →
        ∀ (n : String) (fs : List FieldInfo), (n, fs) ∈ g →
        strEndsWith n "_association" = false →
        fs.any isPkField = true ∧
        ∃ fs₀, (fs₀.any isPkField = true ∧ fs = fs₀) ∨
               (fs₀.any isPkField = false ∧ fs = syntheticIdField :: fs₀ ∧
                fs.countP isPkField = 1)) ∧
    (∀ (g' : Graph) (n : String) (fs : List FieldInfo),
        (n, fs) ∈ g' → strEndsWith n "_association" = true →
        (n, fs) ∈ addIdPass g') ∧
    (pyAnalyzeFuel 100 docAssocField =
        Except.ok [("foo_association", [xFd]),
                   ("t", [syntheticIdField, fooAssocFd])] ∧
     List.any [xFd] isPkField = false ∧
     strEndsWith "foo_association" "_association" = true) := by
  refine ⟨?_, ?_, rfl, rfl, rfl⟩
  · intro fuel data g h n fs hmem hassoc
    unfold pyAnalyzeFuel at h
    cases hfull : pyAnalyzeFull fuel data with
    | error e => rw [hfull] at h; simp [Except.map] at h
    | ok st =>
      rw [hfull] at h
      simp only [Except.map] at h
      cases h
      obtain ⟨g₀, hg⟩ := pyAnalyzeFull_result_graph hfull
      rw [hg] at hmem
      obtain ⟨fs₀, hm0, hfs⟩ := addIdPass_mem hmem
      rw [hassoc] at hfs
      simp only [Bool.false_eq_true, if_false] at hfs
      by_cases hpk : fs₀.any isPkField = true
      · rw [hpk, if_pos rfl] at hfs
        refine ⟨?_, fs₀, Or.inl ⟨hpk, hfs⟩⟩
        rw [hfs]; exact hpk
      · have hpk' : fs₀.any isPkField = false := by
          cases hb : fs₀.any isPkField
          · rfl
          · exact absurd hb hpk
        rw [hpk', if_neg (by simp)] at hfs
        have h0 : fs₀.countP isPkField = 0 := by
          rw [List.countP_eq_zero]
          intro a ha
          intro hpa
          have hany : fs₀.any isPkField = true := List.any_eq_true.mpr ⟨a, ha, hpa⟩
          rw [hany] at hpk'
          exact Bool.noConfusion hpk'
        refine ⟨?_, fs₀, Or.inr ⟨hpk', hfs, ?_⟩⟩
        · rw [hfs]; simp [List.any_cons, isPkField_syntheticIdField]
        · rw [hfs]; simp [List.countP_cons, h0, isPkField_syntheticIdField]
  · intro g' n fs hmem hassoc
    unfold addIdPass
    exact List.mem_map.mpr ⟨(n, fs), hmem, by simp [hassoc]⟩

/-- Claim C2 witness: the amended statement instantiated — the concrete run
of `docUserNameAge` gives entity `"user"` the synthetic `id` as its single
primary-key field, and the finishing pass carries a concrete
association-named entry over unchanged. -/
theorem claim2_witness :
    ([syntheticIdField, nameFd, ageFd].any isPkField = true ∧
     ∃ fs₀, (fs₀.any isPkField = true ∧ [syntheticIdField, nameFd, ageFd] = fs₀) ∨
            (fs₀.any isPkField = false ∧
             [syntheticIdField, nameFd, ageFd] = syntheticIdField :: fs₀ ∧
             List.countP isPkField [syntheticIdField, nameFd, ageFd] = 1)) ∧
    ("x_association", [xFd]) ∈ addIdPass [("x_association", [xFd])] :=
  ⟨claim2_amended.1 100 docUserNameAge
     [("user", [syntheticIdField, nameFd, ageFd])] rfl
     "user" [syntheticIdField, nameFd, ageFd] (List.mem_singleton.mpr rfl) rfl,
   claim2_amended.2.1 [("x_association", [xFd])] "x_association" [xFd]
     (List.Mem.head _) rfl⟩

/-- Claim C3 counterexample: the field `user.orders` carries an explicit
`entity_type` directive whose value is null, yet list-field entity-type
resolution yields the singularized field name `"order"` instead of the
directive's value, and the full analysis still creates the entity
`"order"` and marks `user.orders` as a relationship to it. -/
theorem claim3_counterexample_null_directive :
    alookup (getFieldMeta storeNullEntity "user" "orders") "entity_type" =
      some Value.null ∧
    listEntityType storeNullEntity "orders" "user" = "order" ∧
    pySchemaAnalyze docNullEntityDirective =
      Except.ok [("order", [syntheticIdField, totalIntFd]),
                 ("user", [syntheticIdField, ordersNullDirFd])] ∧
    ordersNullDirFd.is_relationship = true :=
  ⟨rfl, rfl, rfl, rfl⟩

/-- Claim C3 (amended): a string-valued `entity_type` directive always wins
for nested-dict fields — resolution returns exactly the directive's string,
including the empty string (which then names an entity `""`), regardless of
the field's own name, its pluralization, or membership in the recognized
common-entity set; for list-of-dict fields the directive wins exactly when
it is a non-empty string.  A null directive value suppresses entity
treatment for nested-dict fields only; for list-of-dict fields a null or an
empty-string directive falls back to the singularized field name (see
`claim3_counterexample_null_directive`). -/
theorem claim3_amended :
    (∀ (store : MetaStore) (v : Value) (fieldName parentType s : String),
        alookup (getFieldMeta store parentType fieldName) "entity_type" =
          some (Value.str s) →
        determineEntityType store v fieldName parentType = some s) ∧
    (∀ (store : MetaStore) (fieldName parentType s : String),
        alookup (getFieldMeta store parentType fieldName) "entity_type" =
          some (Value.str s) →
        ¬ s = "" →
        listEntityType store fieldName parentType = s) ∧
    (∀ (store : MetaStore) (v : Value) (fieldName parentType : String),
        alookup (getFieldMeta store parentType fieldName) "entity_type" =
          some Value.null →
        determineEntityType store v fieldName parentType = Option.none) ∧
    (∀ (store : MetaStore) (fieldName parentType : String),
        alookup (getFieldMeta store parentType fieldName) "entity_type" =
          some Value.null →
        listEntityType store fieldName parentType = singularize fieldName) ∧
    (∀ (store : MetaStore) (fieldName parentType : String),
        alookup (getFieldMeta store parentType fieldName) "entity_type" =
          some (Value.str "") →
        listEntityType store fieldName parentType = singularize fieldName) := by
  refine ⟨?_, ?_, ?_, ?_, ?_⟩
  · intro store v fieldName parentType s hdir
    simp [determineEntityType, hdir]
  · intro store fieldName parentType s hdir hs
    have hbeq : (s == "") = false := beq_eq_false_iff_ne.mpr hs
    simp [listEntityType, hdir, hbeq]
  · intro store v fieldName parentType hdir
    simp [determineEntityType, hdir]
  · intro store fieldName parentType hdir
    simp [listEntityType, hdir]
  · intro store fieldName parentType hdir
    simp [listEntityType, hdir]

/-- Claim C3 witness: the amended statement instantiated — `"orderline"`
overrides singularization for both field kinds; an empty-string directive
names the entity `""` for a nested-dict field; a null directive yields no
entity for a nested-dict field; and both a null and an empty-string
directive fall back to the singularized field name for list fields. -/
theorem claim3_witness :
    determineEntityType [("user.orders", [("entity_type", Value.str "orderline")])]
      (Value.dict []) "orders" "user" = some "orderline" ∧
    listEntityType [("user.orders", [("entity_type", Value.str "orderline")])]
      "orders" "user" = "orderline" ∧
    determineEntityType [("user.spouse", [("entity_type", Value.str "")])]
      (Value.dict []) "spouse" "user" = some "" ∧
    determineEntityType storeNullEntity (Value.dict []) "orders" "user" =
      Option.none ∧
    listEntityType storeNullEntity "orders" "user" = singularize "orders" ∧
    listEntityType [("user.orders", [("entity_type", Value.str "")])]
      "orders" "user" = singularize "orders" :=
  ⟨claim3_amended.1 [("user.orders", [("entity_type", Value.str "orderline")])]
     (Value.dict []) "orders" "user" "orderline" rfl,
   claim3_amended.2.1 [("user.orders", [("entity_type", Value.str "orderline")])]
     "orders" "user" "orderline" rfl (by decide),
   claim3_amended.1 [("user.spouse", [("entity_type", Value.str "")])]
     (Value.dict []) "spouse" "user" "" rfl,
   claim3_amended.2.2.1 storeNullEntity (Value.dict []) "orders" "user" rfl,
   claim3_amended.2.2.2.1 storeNullEntity "orders" "user" rfl,
   claim3_amended.2.2.2.2 [("user.orders", [("entity_type", Value.str "")])]
     "orders" "user" rfl⟩

/-- Claim C6 counterexample: the field `user.prefs` has an empty dict as its
example value, yet its descriptor is a singular foreign-key relationship
(`is_relationship = true`, `is_foreign_key = true`), the entity `"prefs"` is
added to the graph, and a recursive sub-analysis runs (producing the
entity's synthetic-id-only field list). -/
theorem claim6_counterexample_empty_dict :
    pySchemaAnalyze docEmptyDict =
      Except.ok [("prefs", [syntheticIdField]),
                 ("user", [syntheticIdField, prefsFd])] ∧
    prefsFd.is_relationship = true ∧ prefsFd.is_foreign_key = true :=
  ⟨rfl, rfl, rfl⟩

/-- Claim C6 (amended): a field whose example value is an EMPTY LIST yields a
plain descriptor (`is_relationship = false`, `is_foreign_key = false`), the
loop step for such a field changes neither the store nor the graph and
triggers no recursive sub-analysis; a field whose example value is an EMPTY
DICT, however, is treated exactly like a non-empty dict: with no directives
and a field name differing from the parent's, its descriptor is a singular
foreign-key relationship (and the driver recurses into the resolved entity,
see `claim6_counterexample_empty_dict`). -/
theorem claim6_amended :
    (∀ (store : MetaStore) (fieldName parentType : String) (fi : FieldInfo),
        analyzeValue store (Value.list []) fieldName parentType = Except.ok fi →
        fi.is_relationship = false ∧ fi.is_foreign_key = false) ∧
    (∀ (rec : AnalyzerState → String → Value → Except String AnalyzerState)
        (tn : String) (st : AnalyzerState) (fieldName : String)
        (rest : List (String × Value)) (st' : AnalyzerState)
        (fis : List FieldInfo),
        (fieldName == METADATA_KEY) = false →
        analyzeLoopF rec tn st ((fieldName, Value.list []) :: rest) =
          Except.ok (st', fis) →
        ∃ fi fis', analyzeValue st.store (Value.list []) fieldName tn =
            Except.ok fi ∧
          analyzeLoopF rec tn st rest = Except.ok (st', fis') ∧
          fis = fi :: fis') ∧
    (∀ (store : MetaStore) (fieldName parentType : String) (fi : FieldInfo),
        getFieldMeta store parentType fieldName = [] →
        (fieldName == parentType) = false →
        analyzeValue store (Value.dict []) fieldName parentType = Except.ok fi →
        fi.is_relationship = true ∧ fi.is_foreign_key = true) := by
  refine ⟨?_, ?_, ?_⟩
  · intro store fieldName parentType fi h
    simp only [analyzeValue, isStr, Bool.and_false, Bool.false_eq_true,
      if_false] at h
    split at h
    · simp at h
    · cases h
      simp only [shapeField, isNull, Bool.false_eq_true, if_false]
      constructor <;> split <;> rfl
  · intro rec tn st fieldName rest st' fis hfn h
    unfold analyzeLoopF at h
    simp only [hfn, Bool.false_eq_true, if_false] at h
    obtain ⟨fi, hfi, h⟩ := exBind_ok h
    obtain ⟨⟨st2, fis2⟩, hrest, h⟩ := exBind_ok h
    cases h
    exact ⟨fi, fis2, hfi, hrest, rfl⟩
  · intro store fieldName parentType fi hmeta hne h
    have hdir : alookup (getFieldMeta store parentType fieldName) "entity_type" =
        Option.none := by rw [hmeta]; rfl
    obtain ⟨e, he⟩ :=
      @determineEntityType_no_directive _ (Value.dict []) _ _ hdir
    simp only [analyzeValue, hmeta] at h
    split at h
    · rename_i hcond
      simp [metaGet, alookup, isStr] at hcond
    · split at h
      · simp at h
      · cases h
        simp [shapeField, isNull, hne, he]

/-- Claim C6 witness: the amended statement instantiated — an empty-list
field `t.xs` yields the plain descriptor `fiEmptyList` and an untouched
state, while the empty-dict field `user.prefs` yields the relationship
descriptor `prefsFd`. -/
theorem claim6_witness :
    (fiEmptyList.is_relationship = false ∧ fiEmptyList.is_foreign_key = false) ∧
    (∃ fi fis', analyzeValue [] (Value.list []) "xs" "t" = Except.ok fi ∧
      analyzeLoopF (analyzeStructure 5) "t" ⟨[], [], []⟩ [] =
        Except.ok (⟨[], [], []⟩, fis') ∧
      [fiEmptyList] = fi :: fis') ∧
    (prefsFd.is_relationship = true ∧ prefsFd.is_foreign_key = true) :=
  ⟨claim6_amended.1 [] "xs" "t" fiEmptyList rfl,
   claim6_amended.2.1 (analyzeStructure 5) "t" ⟨[], [], []⟩ "xs" []
     ⟨[], [], []⟩ [fiEmptyList] rfl rfl,
   claim6_amended.2.2 [] "prefs" "user" prefsFd rfl rfl rfl⟩

/-- Claim C7 counterexample: analyzing
`{"user": {"name": "J", "address": {"street": "x"}}}`, the activation trace
records that when the newly discovered entity `"address"` began having its
fields analyzed, `"address"` was NOT yet a key of the shared entity graph
(the recorded flag is `false`); registration happens only after the entity's
fields are analyzed, contradicting the claimed register-before-analyze
discipline. -/
theorem claim7_counterexample_late_registration :
    pyAnalyzeTrace 100 docUserAddress =
      Except.ok [("user", false), ("address", false)] := rfl

/-- Claim C7 (amended): in the code, entity registration happens only AFTER
an entity's fields are analyzed, not before.  What does hold after any
successful run: (1) no `analyze_structure` activation ever began on an
entity name already registered in the shared graph — the recursion guards
only enter unregistered names (every recorded activation flag is `false`);
(2) every entity whose analysis began is registered by the end of the run;
(3) the graph's keys are duplicate-free, so each entity appears exactly once.
Termination is ensured by the finite depth of the example document (modelled
by the fuel bound), not by pre-registration. -/
theorem claim7_amended (fuel : Nat) (data : Value) (st : AnalyzerState)
    (h : pyAnalyzeFull fuel data = Except.ok st) :
    st.trace.all (fun e => !e.2) = true ∧
    st.trace.all (fun e => graphHasKey st.graph e.1) = true ∧
    (st.graph.map Prod.fst).Nodup := by
  unfold pyAnalyzeFull at h
  split at h
  · split at h
    · obtain ⟨hstep, _⟩ := analyzeStructure_stinv fuel _ _ _ _ h rfl
      refine ⟨hstep.1 rfl, ?_, hstep.2.2.1 List.nodup_nil⟩
      rw [List.all_eq_true]
      intro e he
      rcases hstep.2.2.2 e he with h0 | hk
      · exact absurd h0 (List.not_mem_nil e)
      · exact hk
    · simp at h
  · simp at h

/-- Claim C7 witness: the amended statement instantiated on the concrete run
of `docUserAddress`, whose final state has trace
`[("user", false), ("address", false)]` — no activation began on a
registered name, both analyzed entities end up registered, and the keys
`address`, `user` are distinct. -/
theorem claim7_witness :
    ([("user", false), ("address", false)].all (fun e => !e.2) = true ∧
     ([("user", false), ("address", false)].all (fun e =>
        graphHasKey [("address", [syntheticIdField, streetFd]),
                     ("user", [syntheticIdField, nameFd, addressFd])] e.1)) = true ∧
     (([("address", [syntheticIdField, streetFd]),
        ("user", [syntheticIdField, nameFd, addressFd])] : Graph).map
          Prod.fst).Nodup) :=
  claim7_amended 100 docUserAddress
    ⟨[], [("address", [syntheticIdField, streetFd]),
          ("user", [syntheticIdField, nameFd, addressFd])],
     [("user", false), ("address", false)]⟩ rfl

/-- Claim C8 counterexample: `user.spouse` declares the recognized type
override `"string"`, the reference-table rule does not apply, yet because the
example value is null and an `entity_type` directive is also present the
produced descriptor records the `Any` placeholder, not the mapped `str`
type. -/
theorem claim8_counterexample_override_displaced :
    alookup (getFieldMeta storeTypeAndEntity "user" "spouse") "type" =
      some (Value.str "string") ∧
    typeMap "string" = some PyType.str ∧
    analyzeValue storeTypeAndEntity Value.null "spouse" "user" =
      Except.ok spouseFd ∧
    spouseFd.python_type = PyType.any ∧
    ¬ spouseFd.python_type = PyType.str :=
  ⟨rfl, rfl, rfl, rfl, by decide⟩

/-- Claim C8 (amended): for a field with a `type` directive that is not
handled by the reference-table rule, a recognized declared name (string,
integer, float, boolean, json, array) is mapped through `typeMap` and the
descriptor records the mapped type — unless the example value is null and an
`entity_type` directive is also present, in which case the descriptor records
the `Any` placeholder (see `claim8_counterexample_override_displaced`); an
unrecognized declared name makes field analysis fail with the configuration
error `"Unsupported type in metadata"`, which the driver loop propagates to
its caller, so no descriptor is produced for that field. -/
theorem claim8_amended :
    (∀ (store : MetaStore) (v : Value) (fieldName parentType : String)
        (tv : Value) (pyt : PyType),
        alookup (getFieldMeta store parentType fieldName) "type" = some tv →
        (pyTruthy (metaGet (getFieldMeta store parentType fieldName)
            "is_reference_table" (Value.bool false)) && isStr v) = false →
        typeOverride tv = some pyt →
        ∃ fi, analyzeValue store v fieldName parentType = Except.ok fi ∧
          fi.python_type =
            (if isNull v = true ∧
                (alookup (getFieldMeta store parentType fieldName)
                  "entity_type").isSome = true
             then PyType.any else pyt)) ∧
    (∀ (store : MetaStore) (v : Value) (fieldName parentType : String)
        (tv : Value),
        alookup (getFieldMeta store parentType fieldName) "type" = some tv →
        (pyTruthy (metaGet (getFieldMeta store parentType fieldName)
            "is_reference_table" (Value.bool false)) && isStr v) = false →
        typeOverride tv = Option.none →
        analyzeValue store v fieldName parentType =
          Except.error "Unsupported type in metadata") ∧
    (∀ (rec : AnalyzerState → String → Value → Except String AnalyzerState)
        (tn : String) (st : AnalyzerState) (fieldName : String) (v : Value)
        (rest : List (String × Value)) (msg : String),
        (fieldName == METADATA_KEY) = false →
        analyzeValue st.store v fieldName tn = Except.error msg →
        analyzeLoopF rec tn st ((fieldName, v) :: rest) = Except.error msg) := by
  refine ⟨?_, ?_, ?_⟩
  · intro store v fieldName parentType tv pyt hT href hover
    cases hv : analyzeValue store v fieldName parentType with
    | error e =>
      exfalso
      simp only [analyzeValue] at hv
      split at hv
      · simp at hv
      · split at hv
        · rename_i heq
          simp [basePyType, hT, hover] at heq
        · simp at hv
    | ok fi =>
      refine ⟨fi, rfl, ?_⟩
      simp only [analyzeValue] at hv
      split at hv
      · rename_i hcond
        rw [href] at hcond
        exact Bool.noConfusion hcond
      · split at hv
        · simp at hv
        · rename_i pt hpt
          cases hv
          rw [shapeField_python_type]
          have hpt' : pt = pyt := by
            simp [basePyType, hT, hover] at hpt
            exact hpt.symm
          rw [hpt']
  · intro store v fieldName parentType tv hT href hbad
    simp only [analyzeValue, href, Bool.false_eq_true, if_false]
    simp [basePyType, hT, hbad]
  · intro rec tn st fieldName v rest msg hfn herr
    unfold analyzeLoopF
    simp only [hfn, Bool.false_eq_true, if_false]
    split <;> rw [herr] <;> rfl

/-- Claim C8 witness: the amended statement instantiated — the recognized
override `{"user.age": {"type": "string"}}` on the integer example `30`
succeeds and records `str`; the unrecognized override
`{"t.x": {"type": "bogus"}}` fails with the configuration error, and the
driver loop on such a field propagates exactly that error. -/
theorem claim8_witness :
    (∃ fi, analyzeValue [("user.age", [("type", Value.str "string")])]
        (Value.int 30) "age" "user" = Except.ok fi ∧
      fi.python_type =
        (if isNull (Value.int 30) = true ∧
            (alookup (getFieldMeta [("user.age", [("type", Value.str "string")])]
              "user" "age") "entity_type").isSome = true
         then PyType.any else PyType.str)) ∧
    analyzeValue [("t.x", [("type", Value.str "bogus")])] (Value.int 1) "x" "t" =
      Except.error "Unsupported type in metadata" ∧
    analyzeLoopF (analyzeStructure 5) "t"
        ⟨[("t.x", [("type", Value.str "bogus")])], [], []⟩
        [("x", Value.int 1)] =
      Except.error "Unsupported type in metadata" :=
  ⟨claim8_amended.1 [("user.age", [("type", Value.str "string")])]
      (Value.int 30) "age" "user" (Value.str "string") PyType.str rfl rfl rfl,
   claim8_amended.2.1 [("t.x", [("type", Value.str "bogus")])]
      (Value.int 1) "x" "t" (Value.str "bogus") rfl rfl rfl,
   claim8_amended.2.2 (analyzeStructure 5) "t"
      ⟨[("t.x", [("type", Value.str "bogus")])], [], []⟩
      "x" (Value.int 1) [] "Unsupported type in metadata" rfl rfl⟩

/-- Claim C9 counterexample: the descriptor of `user.address` (a nested-dict
field with no type override) records `python_type = dict` — the example's
runtime type — while being marked a relationship; `dict` is neither one of
the claimed primitive types (string, integer, float, boolean, null
placeholder) nor the `any` placeholder. -/
theorem claim9_counterexample_dict_python_type :
    pySchemaAnalyze docUserAddress =
      Except.ok [("address", [syntheticIdField, streetFd]),
                 ("user", [syntheticIdField, nameFd, addressFd])] ∧
    addressFd.is_relationship = true ∧
    addressFd.python_type = PyType.dict ∧
    ¬ addressFd.python_type = PyType.any :=
  ⟨rfl, rfl, rfl, by decide⟩

/-- Claim C10: for any field whose example value is a non-empty list of
dicts, the analysis depends only on the list's first element — two input
documents related by `FirstEq` (identical except in the elements after the
first of such a list, with metadata blocks identical) yield identical
analysis results, hence identical entity graphs. -/
theorem claim10_first_element_only (fuel : Nat) (d d' : Value)
    (h : FirstEq d d') : pyAnalyzeFuel fuel d = pyAnalyzeFuel fuel d' := by
  cases h with
  | refl => rfl
  | list hh => rfl
  | @dict fs fs' hfs =>
    simp only [pyAnalyzeFuel, pyAnalyzeFull]
    have hex : extractTopMeta fs = extractTopMeta fs' := by
      unfold extractTopMeta
      rw [FirstEqFields_alookup_meta hfs]
    rw [hex]
    have hfil := FirstEqFields_filter hfs
    revert hfil
    generalize fs.filter (fun p => !(p.1 == METADATA_KEY)) = F
    generalize fs'.filter (fun p => !(p.1 == METADATA_KEY)) = F2
    intro hfil
    cases hfil with
    | nil => rfl
    | @cons k v v' r r' hmk hv hr =>
      cases hr with
      | nil =>
        exact congrArg _ (analyzeStructure_congr fuel _ k v v' hv)
      | cons => rfl

/-- A user document whose `orders` list has a second element. -/
def docOrdersTwo : Value :=
  Value.dict [("user", Value.dict
    [("orders", Value.list
      [Value.dict [("total", Value.int 1)],
       Value.dict [("surprise", Value.str "ignored")]])])]

/-- The same document with everything after the first `orders` element
dropped. -/
def docOrdersOne : Value :=
  Value.dict [("user", Value.dict
    [("orders", Value.list [Value.dict [("total", Value.int 1)]])])]

/-- Claim C10 witness: dropping the second element of the `orders` list (a
non-empty list of dicts) leaves the analysis result unchanged. -/
theorem claim10_witness :
    pyAnalyzeFuel 100 docOrdersTwo = pyAnalyzeFuel 100 docOrdersOne :=
  claim10_first_element_only 100 docOrdersTwo docOrdersOne
    (FirstEq.dict (FirstEqFields.cons (fun hk => absurd hk (by decide))
      (FirstEq.dict (FirstEqFields.cons (fun hk => absurd hk (by decide))
        (FirstEq.list (FirstEq.refl (Value.dict [("total", Value.int 1)])))
        FirstEqFields.nil))
      FirstEqFields.nil))

/-- Claim C9 (amended): for every descriptor produced by field analysis
without a `type`-override directive, the recorded value type is the example
value's runtime type (string, integer, float, boolean, dict, list, or the
null placeholder) — except that a null example value combined with an
`entity_type` directive records the `Any` placeholder.  In particular a
relationship descriptor inferred from a dict (resp. list) example keeps
`dict` (resp. `list`) as its recorded type rather than `any`. -/
theorem claim9_amended (store : MetaStore) (v : Value)
    (fieldName parentType : String) (fi : FieldInfo)
    (hty : alookup (getFieldMeta store parentType fieldName) "type" =
      Option.none)
    (h : analyzeValue store v fieldName parentType = Except.ok fi) :
    fi.python_type =
      (if isNull v = true ∧
          (alookup (getFieldMeta store parentType fieldName)
            "entity_type").isSome = true
       then PyType.any else runtimeType v) := by
  simp only [analyzeValue] at h
  split at h
  · rename_i hcond
    have hstr : isStr v = true := (Bool.and_eq_true_iff.mp hcond).2
    cases h
    cases v <;> simp [isStr] at hstr
    simp [isNull, runtimeType]
  · split at h
    · rename_i heq
      simp [basePyType, hty] at heq
    · rename_i pt hpt
      cases h
      rw [shapeField_python_type]
      have hpt' : pt = runtimeType v := by
        simp [basePyType, hty] at hpt
        exact hpt.symm
      rw [hpt']

/-- Claim C9 witness: the amended statement instantiated on the nested-dict
field `user.address` of `docUserAddress` — no override, not null, so the
recorded type is the runtime type `dict`. -/
theorem claim9_witness :
    addressFd.python_type =
      (if isNull (Value.dict [("street", Value.str "x")]) = true ∧
          (alookup (getFieldMeta [] "user" "address") "entity_type").isSome = true
       then PyType.any
       else runtimeType (Value.dict [("street", Value.str "x")])) :=
  claim9_amended [] (Value.dict [("street", Value.str "x")]) "address" "user"
    addressFd rfl rfl

end PyFlattenDB
